import Mathlib

/-!
Shallow embedding of the frame-orchestration core of the `comfy` engine:
`src/comfy-core/src/config.rs` (configuration types) and
`src/comfy/src/engine.rs` (`EngineState`, `EngineContext` and their methods).

Rust `f32` values are modelled as exact rationals (`ℚ`), `u32`/`u64` as `ℕ`
(no arithmetic in the embedded code can overflow), `&'static str` as `String`.
A Rust `panic!`/`unwrap` failure is modelled by `Option.none` on the result.
External collaborator types (renderer, UI context, asset store, ...) are
modelled with just the structure the embedded code touches; where the
collaborator is part of this repository but outside the provided sources,
its behaviour is modelled from the spec and the doc comment says so.
-/

namespace Comfy

/-! ## config.rs -/

/-- `ResolutionConfig` from `src/comfy-core/src/config.rs`: either a physical
or a logical resolution, each carrying a width and a height. -/
inductive ResolutionConfig where
  | Physical (w h : ℕ)
  | Logical (w h : ℕ)
  deriving DecidableEq, Repr

/-- `ResolutionConfig::width`: the first stored component of either variant. -/
def ResolutionConfig.width : ResolutionConfig → ℕ
  | .Physical w _ => w
  | .Logical w _ => w

/-- `ResolutionConfig::height`: the second stored component of either variant. -/
def ResolutionConfig.height : ResolutionConfig → ℕ
  | .Physical _ h => h
  | .Logical _ h => h

/-- `PresentMode` from `src/comfy-core/src/config.rs`. -/
inductive PresentMode where
  | AutoVsync
  | AutoNoVsync
  | Fifo
  | FifoRelaxed
  | Immediate
  | Mailbox
  deriving DecidableEq, Repr

/-- First declaration of `RenderConfig` in `src/comfy-core/src/config.rs`
(lines 99-103, the one whose field types the record expression in
`GameConfig::default` matches): `target_framerate: f32`,
`present_mode: PresentMode`. The same file declares `RenderConfig` a second
time (lines 105-109) with `present_mode: i32`; see `RenderConfigSecondDecl`.
Rust rejects the duplicate definition, so the file does not compile. -/
structure RenderConfig where
  target_framerate : ℚ
  present_mode : PresentMode
  deriving DecidableEq, Repr

/-- Second declaration of `RenderConfig` in `src/comfy-core/src/config.rs`
(lines 105-109): `pub target_framerate: f32`, `pub present_mode: i32`.
Conflicts with the first declaration; embedded under a distinct name because
Lean, like Rust, refuses two structures of one name. -/
structure RenderConfigSecondDecl where
  target_framerate : ℚ
  present_mode : ℤ
  deriving DecidableEq, Repr

/-- `RecordingMode` from `src/comfy-core/src/config.rs`. -/
inductive RecordingMode where
  | None
  | Tiktok
  | Landscape
  deriving DecidableEq, Repr

/-- `DevConfig` from `src/comfy-core/src/config.rs`. -/
structure DevConfig where
  show_lighting_config : Bool
  show_buffers : Bool
  show_fps : Bool
  show_editor : Bool
  show_tiktok_overlay : Bool
  log_collisions : Bool
  show_ai_target : Bool
  show_linear_acc_target : Bool
  show_angular_acc_target : Bool
  draw_colliders : Bool
  draw_collision_marks : Bool
  show_debug_bullets : Bool
  orig_props : Bool
  collider_outlines : Bool
  show_debug : Bool
  recording_mode : RecordingMode
  deriving DecidableEq, Repr

/-- `DevConfig::default` (non-`ci-release` build, so `show_fps: true`). -/
def DevConfig.mkDefault : DevConfig where
  show_lighting_config := false
  show_buffers := false
  show_editor := false
  log_collisions := false
  show_ai_target := false
  show_linear_acc_target := false
  show_angular_acc_target := false
  show_tiktok_overlay := false
  show_debug_bullets := false
  show_fps := true
  draw_colliders := false
  draw_collision_marks := false
  collider_outlines := false
  orig_props := true
  show_debug := false
  recording_mode := RecordingMode.Landscape

/-- `GlobalLightingParams` is external to the provided sources; the embedded
code only stores and copies it, so it is modelled as an opaque-free unit. -/
def GlobalLightingParams : Type := Unit

instance : DecidableEq GlobalLightingParams := fun _ _ => isTrue rfl

/-- `GlobalLightingParams::default()`. -/
def GlobalLightingParams.mkDefault : GlobalLightingParams := ()

/-- `GameConfig` from `src/comfy-core/src/config.rs`. -/
structure GameConfig where
  game_name : String
  version : String
  resolution : ResolutionConfig
  bloom_enabled : Bool
  lighting : GlobalLightingParams
  lighting_enabled : Bool
  enable_dynamic_camera : Bool
  dev : DevConfig
  scroll_speed : ℚ
  music_enabled : Bool
  show_combat_text : Bool
  spawn_exp : Bool
  render_config : RenderConfig
  deriving DecidableEq

/-- `GameConfig::default` (non-wasm build, so the resolution is
`Physical(1920, 1080)`). The `render_config` record expression is the one
written in the source, `RenderConfig { target_framerate: 60., present_mode:
PresentMode::AutoNoVsync }`, which matches only the first `RenderConfig`
declaration. `lighting_enabled: false` per the source. -/
def GameConfig.mkDefault : GameConfig where
  game_name := "TODO_GAME_NAME"
  version := "TODO_VERSION"
  resolution := ResolutionConfig.Physical 1920 1080
  bloom_enabled := false
  lighting := GlobalLightingParams.mkDefault
  lighting_enabled := false
  dev := DevConfig.mkDefault
  enable_dynamic_camera := false
  scroll_speed := 7
  music_enabled := false
  show_combat_text := true
  spawn_exp := true
  render_config := { target_framerate := 60, present_mode := PresentMode.AutoNoVsync }

/-! ## engine.rs: subsystem cells and collaborator models -/

/-- Borrow flag of a single-writer-checked cell. -/
inductive BorrowFlag where
  | free
  | mutBorrowed
  deriving DecidableEq, Repr

/-- Modelled from the spec: the single-writer-checked cell guarding every
subsystem field of the owning state (`std::cell::RefCell` in the source,
whose implementation is outside this repository). Per the spec, any code
path that would produce two simultaneous mutable references to the same
subsystem must fail fast with an explicit abort; the cell therefore carries
its current borrow flag alongside its value. -/
structure RefCell (α : Type) where
  value : α
  flag : BorrowFlag := BorrowFlag.free
  deriving DecidableEq, Repr

/-- A fresh, unborrowed cell (`RefCell::new`). -/
def RefCell.new {α : Type} (a : α) : RefCell α := { value := a }

/-- Modelled from the spec: obtaining a mutable reference from a
single-writer-checked cell (`RefCell::borrow_mut`). Succeeds, marking the
cell mutably borrowed, only when no mutable borrow is outstanding; a second
simultaneous attempt fails fast (`none` models the abort/panic). -/
def RefCell.borrow_mut {α : Type} (c : RefCell α) : Option (RefCell α) :=
  match c.flag with
  | BorrowFlag.free => some { c with flag := BorrowFlag.mutBorrowed }
  | BorrowFlag.mutBorrowed => none

/-- `CachedImageLoader` is external to the provided sources; the embedded
code only constructs and stores one. -/
def CachedImageLoader : Type := Unit

instance : DecidableEq CachedImageLoader := fun _ _ => isTrue rfl

/-- `CachedImageLoader::new()`. -/
def CachedImageLoader.mkNew : CachedImageLoader := ()

/-- `Draw` is external to the provided sources; the embedded code only
constructs and stores one. -/
def Draw : Type := Unit

instance : DecidableEq Draw := fun _ _ => isTrue rfl

/-- `Draw::new()`. -/
def Draw.mkNew : Draw := ()

/-- The immediate-mode UI context (`egui::Context`, an external
collaborator). Per the spec it exposes `wants_pointer_input() -> bool`
each tick; only that observable is modelled. -/
structure EguiContext where
  wants_pointer_input : Bool
  deriving DecidableEq, Repr

/-- `egui::Context::default()`: fresh context, no pointer captured yet. -/
def EguiContext.mkDefault : EguiContext := { wants_pointer_input := false }

/-- `MovingStats`, an external rolling-statistics collaborator; the embedded
code constructs one with a window size and stores it. -/
structure MovingStats where
  window : ℕ
  deriving DecidableEq, Repr

/-- `MovingStats::new(window)`. -/
def MovingStats.mkNew (window : ℕ) : MovingStats := { window := window }

/-- The graphics-backend handle (`WgpuRenderer`, a crate of this repository
outside the provided sources). Only the surface size, which `resize`
touches, is modelled. -/
structure WgpuRenderer where
  size : ℕ × ℕ
  deriving DecidableEq, Repr

/-- Modelled from the spec: the minimum dimension degenerate resize
requests are clamped to (`WgpuRenderer::resize` lives in the `comfy-wgpu`
crate, outside the provided sources). -/
def MIN_SURFACE_DIMENSION : ℕ := 1

/-- Modelled from the spec: `WgpuRenderer::resize(new_size)` — degenerate
(e.g. zero-sized) dimensions are clamped to a minimum rather than rejected
or propagated as an error; the call itself always succeeds. -/
def WgpuRenderer.resize (r : WgpuRenderer) (new_size : ℕ × ℕ) : WgpuRenderer :=
  { r with
    size := (max MIN_SURFACE_DIMENSION new_size.1,
             max MIN_SURFACE_DIMENSION new_size.2) }

/-- `WgpuTextureCreator` (a crate of this repository outside the provided
sources); the embedded code only stores and hands out the handle. -/
def WgpuTextureCreator : Type := Unit

instance : DecidableEq WgpuTextureCreator := fun _ _ => isTrue rfl

/-- The open-ended keyed extension store (`AnyMap`); the embedded code only
constructs an empty one and stores it. -/
def AnyMap : Type := List ℕ

instance : DecidableEq AnyMap := inferInstanceAs (DecidableEq (List ℕ))

/-- `AnyMap::new()`. -/
def AnyMap.mkNew : AnyMap := []

/-- Entity identifiers of the simulation graph. -/
def Entity : Type := ℕ

instance : DecidableEq Entity := inferInstanceAs (DecidableEq ℕ)

/-- The simulation graph (`World`); the embedded code constructs an empty
one and hands out checked access to it. -/
structure World where
  entities : List Entity
  deriving DecidableEq

/-- `World::new()`. -/
def World.mkNew : World := { entities := [] }

/-- Modelled from the spec: the command buffer is an ordered queue of
deferred mutation operations; `CommandBuffer::new()` (outside the provided
sources) creates it empty. Operations are opaque to the embedded code. -/
def CommandBuffer : Type := List ℕ

instance : DecidableEq CommandBuffer := inferInstanceAs (DecidableEq (List ℕ))

/-- Modelled from the spec: `CommandBuffer::new()`, the empty queue. -/
def CommandBuffer.mkNew : CommandBuffer := []

/-- The cooldown registry; `Cooldowns::new()` (outside the provided sources)
creates it empty. Only construction and storage are embedded. -/
def Cooldowns : Type := List (String × ℚ)

instance : DecidableEq Cooldowns := inferInstanceAs (DecidableEq (List (String × ℚ)))

/-- `Cooldowns::new()`. -/
def Cooldowns.mkNew : Cooldowns := []

/-- The change tracker; `ChangeTracker::new()` creates it empty. -/
def ChangeTracker : Type := List String

instance : DecidableEq ChangeTracker := inferInstanceAs (DecidableEq (List String))

/-- `ChangeTracker::new()`. -/
def ChangeTracker.mkNew : ChangeTracker := []

/-- The notification queue; `Notifications::new()` creates it empty. -/
def Notifications : Type := List (String × ℚ)

instance : DecidableEq Notifications := inferInstanceAs (DecidableEq (List (String × ℚ)))

/-- `Notifications::new()`. -/
def Notifications.mkNew : Notifications := []

/-- The shared, lockable game-loop handle (`Arc<Mutex<dyn GameLoop>>`); the
embedded code only stores `None` or an installed handle. -/
def GameLoopHandle : Type := Unit

instance : DecidableEq GameLoopHandle := fun _ _ => isTrue rfl

/-- Sound data held by the asset store (raw bytes). -/
def SoundData : Type := List ℕ

instance : DecidableEq SoundData := inferInstanceAs (DecidableEq (List ℕ))

/-- Sound-playback settings (`StaticSoundSettings`, external); the embedded
code only passes the default value through. -/
def StaticSoundSettings : Type := Unit

instance : DecidableEq StaticSoundSettings := fun _ _ => isTrue rfl

/-- `StaticSoundSettings::default()`. -/
def StaticSoundSettings.mkDefault : StaticSoundSettings := ()

/-- Modelled from the spec: the asset store behind the `ASSETS` global.
The spec's asset-loader contract is `load(key, bytes, settings) -> handle`,
cached by key; only the keyed sound cache is modelled. -/
structure Assets where
  sounds : List (String × SoundData)
  deriving DecidableEq

/-- Modelled from the spec: `load_sound_from_bytes(key, bytes, settings)` —
caches the decoded sound under `key`, replacing any previous entry for the
same key. -/
def Assets.load_sound_from_bytes (a : Assets) (key : String) (bytes : SoundData)
    (_settings : StaticSoundSettings) : Assets :=
  { a with sounds := (key, bytes) :: a.sounds.filter (fun p => p.1 ≠ key) }

/-- Looking a sound up by key in the asset store. -/
def Assets.lookupSound (a : Assets) (key : String) : Option SoundData :=
  a.sounds.lookup key

/-! ## engine.rs: EngineState -/

/-- `EngineState` from `src/comfy/src/engine.rs`: the sole owner of all
subsystem state. Fields held in `RefCell` in the source are held in the
checked-cell model here; `Rc<RefCell<World>>` shares the same cell model
(the `Rc` adds nothing observable single-threaded). -/
structure EngineState where
  cached_loader : RefCell CachedImageLoader
  draw : RefCell Draw
  egui : EguiContext
  frame : ℕ
  flags : RefCell (List String)
  dt_stats : MovingStats
  fps_stats : MovingStats
  renderer : Option WgpuRenderer
  texture_creator : Option WgpuTextureCreator
  lighting : GlobalLightingParams
  meta : AnyMap
  world : RefCell World
  commands : RefCell CommandBuffer
  config : RefCell GameConfig
  cooldowns : RefCell Cooldowns
  changes : RefCell ChangeTracker
  notifications : RefCell Notifications
  game_loop : Option GameLoopHandle
  is_paused : RefCell Bool
  show_pause_menu : Bool
  quit_flag : Bool
  to_despawn : RefCell (List Entity)
  accumulator : ℚ
  previous_time : ℚ
  deriving DecidableEq

/-- The raw bytes of the bundled `assets/error.ogg` fallback sound, opaque
to the embedded code (the source embeds them with a compile-time include). -/
def errorSoundBytes : SoundData := [0]

/-- `EngineState::new(config)` from `src/comfy/src/engine.rs`. The source
first loads the fallback `"error"` sound into the global `ASSETS` store and
then builds the state record; the global store is threaded explicitly, so
`new` takes the store before the call and returns it alongside the state.
`now` stands for the external monotonic time source read into
`previous_time`. Logger installation, RNG seeding and the camera-zoom
global, which touch nothing the state holds, are not modelled. -/
def EngineState.new (config : GameConfig) (assets : Assets) (now : ℚ) :
    EngineState × Assets :=
  let assets1 := assets.load_sound_from_bytes "error" errorSoundBytes
    StaticSoundSettings.mkDefault
  ({ cached_loader := RefCell.new CachedImageLoader.mkNew
     egui := EguiContext.mkDefault
     renderer := none
     texture_creator := none
     draw := RefCell.new Draw.mkNew
     dt_stats := MovingStats.mkNew 20
     fps_stats := MovingStats.mkNew 100
     frame := 0
     flags := RefCell.new []
     meta := AnyMap.mkNew
     lighting := config.lighting
     world := RefCell.new World.mkNew
     commands := RefCell.new CommandBuffer.mkNew
     config := RefCell.new config
     cooldowns := RefCell.new Cooldowns.mkNew
     changes := RefCell.new ChangeTracker.mkNew
     notifications := RefCell.new Notifications.mkNew
     game_loop := none
     is_paused := RefCell.new false
     show_pause_menu := false
     quit_flag := false
     to_despawn := RefCell.new []
     accumulator := 0
     previous_time := now }, assets1)

/-- `EngineContext` from `src/comfy/src/engine.rs`: the per-tick context
view handed to host callbacks. Fields that are `&RefCell<T>` / `&mut
RefCell<T>` references in the source hold the referenced cell here; `&mut`
references to plain fields hold the referenced value. -/
structure EngineContext where
  cached_loader : RefCell CachedImageLoader
  egui_wants_mouse : Bool
  renderer : WgpuRenderer
  delta : ℚ
  egui : EguiContext
  draw : RefCell Draw
  frame : ℕ
  dt_stats : MovingStats
  fps_stats : MovingStats
  mouse_world : ℚ × ℚ
  flags : RefCell (List String)
  lighting : GlobalLightingParams
  meta : AnyMap
  world : RefCell World
  commands : RefCell CommandBuffer
  config : RefCell GameConfig
  game_loop : Option GameLoopHandle
  cooldowns : RefCell Cooldowns
  changes : RefCell ChangeTracker
  notifications : RefCell Notifications
  is_paused : RefCell Bool
  show_pause_menu : Bool
  quit_flag : Bool
  to_despawn : RefCell (List Entity)
  texture_creator : WgpuTextureCreator
  deriving DecidableEq

/-- Per-tick external inputs read inside `make_context`: the free functions
`delta()` and `mouse_world()` of the engine runtime. -/
structure TickEnv where
  delta : ℚ
  mouse_world : ℚ × ℚ
  deriving DecidableEq

/-- `EngineState::make_context` from `src/comfy/src/engine.rs`. The source
unwraps `self.renderer` and then `self.texture_creator`; either being
uninstalled panics, modelled by `none`. With both installed it builds the
`EngineContext` record exactly as the source does, reading
`self.egui.wants_pointer_input()` into `egui_wants_mouse` and the external
`delta()` / `mouse_world()` values from the tick environment. -/
def EngineState.make_context (s : EngineState) (env : TickEnv) :
    Option EngineContext :=
  match s.renderer with
  | none => none
  | some renderer =>
    match s.texture_creator with
    | none => none
    | some texture_creator =>
      some
        { cached_loader := s.cached_loader
          egui_wants_mouse := s.egui.wants_pointer_input
          renderer := renderer
          delta := env.delta
          egui := s.egui
          draw := s.draw
          frame := s.frame
          dt_stats := s.dt_stats
          fps_stats := s.fps_stats
          mouse_world := env.mouse_world
          flags := s.flags
          lighting := s.lighting
          meta := s.meta
          world := s.world
          commands := s.commands
          config := s.config
          game_loop := s.game_loop
          cooldowns := s.cooldowns
          changes := s.changes
          notifications := s.notifications
          is_paused := s.is_paused
          show_pause_menu := s.show_pause_menu
          quit_flag := s.quit_flag
          to_despawn := s.to_despawn
          texture_creator := texture_creator }

/-- `EngineState::resize(new_size)` from `src/comfy/src/engine.rs`:
unwraps the renderer (panic, modelled by `none`, when uninstalled) and
delegates to the renderer's `resize`. -/
def EngineState.resize (s : EngineState) (new_size : ℕ × ℕ) :
    Option EngineState :=
  match s.renderer with
  | none => none
  | some r => some { s with renderer := some (r.resize new_size) }

/-- `EngineState::quit_flag()` from `src/comfy/src/engine.rs`: returns the
stored flag. Suffixed to keep the field of the same name free. -/
def EngineState.quit_flag_fn (s : EngineState) : Bool :=
  s.quit_flag

/-- `EngineState::title()` from `src/comfy/src/engine.rs`: formats the
config's `game_name` followed by the literal suffix " (COMFY ENGINE)". -/
def EngineState.title (s : EngineState) : String :=
  s.config.value.game_name ++ " (COMFY ENGINE)"

/-! ## Frame clock -/

/-- Modelled from the spec: the frame clock's configuration — the fixed
step size, the maximum accepted `real_delta` per tick, and the
max-steps-per-tick bound. The drain loop itself is not in the provided
sources (engine.rs only declares the `accumulator` and `previous_time`
fields); the spec's Frame Clock contract defines it. -/
structure FrameClockConfig where
  fixed_step : ℚ
  max_delta : ℚ
  max_steps : ℕ
  deriving DecidableEq

/-- Modelled from the spec: the drain loop of `advance` — while the
accumulator is at least `fixed_step` and fewer than `max_steps` steps have
been taken, subtract `fixed_step` and count a step. Returns the remaining
accumulator and the step count. -/
def drainSteps (fixed_step : ℚ) : ℕ → ℚ → ℚ × ℕ
  | 0, acc => (acc, 0)
  | n + 1, acc =>
    if fixed_step ≤ acc then
      let r := drainSteps fixed_step n (acc - fixed_step)
      (r.1, r.2 + 1)
    else
      (acc, 0)

/-- Modelled from the spec: `advance(real_delta) -> (step_count,
interpolation remainder)`. A negative `real_delta` is clamped to 0, an
unexpectedly large one to `max_delta`; the clamped delta is accumulated and
the drain loop runs under the max-steps bound; when the bound was hit with
a full step still pending, the excess time is dropped, not queued. Returns
the new accumulator and the step count. -/
def FrameClockConfig.advance (cfg : FrameClockConfig) (acc real_delta : ℚ) :
    ℚ × ℕ :=
  let d := max 0 (min real_delta cfg.max_delta)
  let r := drainSteps cfg.fixed_step cfg.max_steps (acc + d)
  if cfg.fixed_step ≤ r.1 then (0, r.2) else r

/-- The accumulator after feeding a whole sequence of `real_delta` inputs
through `advance`, starting from the freshly constructed state's
accumulator value 0. -/
def clockRun (cfg : FrameClockConfig) (ds : List ℚ) : ℚ :=
  ds.foldl (fun a d => (cfg.advance a d).1) 0

/-! ## Concrete witness data -/

/-- A concrete installed renderer handle. -/
def rendererW : WgpuRenderer := { size := (1920, 1080) }

/-- A concrete engine state with both the renderer and the texture-creator
handle installed, as after host integration completes. -/
def stateW : EngineState :=
  let base := (EngineState.new GameConfig.mkDefault { sounds := [] } 0).1
  { base with renderer := some rendererW, texture_creator := some () }

/-- A concrete tick environment. -/
def envW : TickEnv := { delta := 1 / 60, mouse_world := (0, 0) }

/-- The context view built from `stateW`. -/
def ctxW : EngineContext := (stateW.make_context envW).get (by decide)

/-- The simulation-graph cell of `ctxW` after a first successful mutable
borrow. -/
def worldBorrowedW : RefCell World :=
  { value := World.mkNew, flag := BorrowFlag.mutBorrowed }

/-- A concrete frame-clock configuration: 1/240 s fixed step, 1/4 s delta
clamp, at most 5 steps per tick. -/
def clockW : FrameClockConfig :=
  { fixed_step := 1 / 240, max_delta := 1 / 4, max_steps := 5 }

end Comfy

/-! ## Helper lemmas -/

/-- The drain loop never drives the accumulator negative: it subtracts
`fixed_step` only when the accumulator still covers it. -/
theorem drainSteps_nonneg (fixed_step : ℚ) (hs : 0 ≤ fixed_step) :
    ∀ (n : ℕ) (acc : ℚ), 0 ≤ acc → 0 ≤ (Comfy.drainSteps fixed_step n acc).1
  | 0, _, ha => ha
  | n + 1, acc, ha => by
    unfold Comfy.drainSteps
    by_cases h : fixed_step ≤ acc
    · simp only [h, if_true]
      exact drainSteps_nonneg fixed_step hs n (acc - fixed_step) (by linarith)
    · simpa [h] using ha

/-- One `advance` call keeps the accumulator non-negative and leaves it
strictly below the fixed step. -/
theorem advance_mem_Ico (cfg : Comfy.FrameClockConfig)
    (hstep : 0 < cfg.fixed_step) (acc d : ℚ) (ha : 0 ≤ acc) :
    0 ≤ (cfg.advance acc d).1 ∧ (cfg.advance acc d).1 < cfg.fixed_step := by
  unfold Comfy.FrameClockConfig.advance
  have hd : (0 : ℚ) ≤ max 0 (min d cfg.max_delta) := le_max_left _ _
  have hacc : 0 ≤ acc + max 0 (min d cfg.max_delta) := by linarith
  have hr := drainSteps_nonneg cfg.fixed_step (le_of_lt hstep) cfg.max_steps
    (acc + max 0 (min d cfg.max_delta)) hacc
  by_cases h : cfg.fixed_step ≤
      (Comfy.drainSteps cfg.fixed_step cfg.max_steps
        (acc + max 0 (min d cfg.max_delta))).1
  · simp only [h, if_true]
    exact ⟨le_refl 0, hstep⟩
  · simp only [h, if_false]
    exact ⟨hr, lt_of_not_le h⟩

/-- Running any sequence of deltas from accumulator 0 keeps it
non-negative. -/
theorem clockRun_nonneg (cfg : Comfy.FrameClockConfig)
    (hstep : 0 < cfg.fixed_step) (ds : List ℚ) : 0 ≤ Comfy.clockRun cfg ds := by
  unfold Comfy.clockRun
  have key : ∀ (l : List ℚ) (a : ℚ), 0 ≤ a →
      0 ≤ l.foldl (fun a d => (cfg.advance a d).1) a := by
    intro l
    induction l with
    | nil => intro a ha; simpa using ha
    | cons x xs ih =>
      intro a ha
      exact ih _ (advance_mem_Ico cfg hstep a x ha).1
  exact key ds 0 (le_refl 0)

/-! ## Claims about config.rs -/

/-- C10: For every `ResolutionConfig` value, whether it is the `Physical` or
the `Logical` variant, `width()` returns its first stored component and
`height()` returns its second stored component. -/
theorem resolution_width_height_components (w h : ℕ) :
    (Comfy.ResolutionConfig.Physical w h).width = w ∧
    (Comfy.ResolutionConfig.Logical w h).width = w ∧
    (Comfy.ResolutionConfig.Physical w h).height = h ∧
    (Comfy.ResolutionConfig.Logical w h).height = h :=
  ⟨rfl, rfl, rfl, rfl⟩

/-- C9 (evaluation of the intended default): under the first `RenderConfig`
declaration — the only one the record expression in `GameConfig::default`
type-checks against — the default configuration has `target_framerate = 60`
and `present_mode = AutoNoVsync`. The source file itself cannot compile:
it declares `RenderConfig` twice, the second time with `present_mode: i32`,
inconsistent with the `PresentMode` value assigned here. -/
theorem default_render_config_values :
    Comfy.GameConfig.mkDefault.render_config.target_framerate = 60 ∧
    Comfy.GameConfig.mkDefault.render_config.present_mode =
      Comfy.PresentMode.AutoNoVsync :=
  ⟨rfl, rfl⟩

/-! ## Claims about engine.rs -/

/-- C1: Building a context view (`EngineState::make_context`) before both
the graphics-backend handle (renderer) and the texture-creator handle have
been installed fails fatally (panics, modelled by `none`); when both are
installed, it returns a context view without failing. -/
theorem make_context_requires_handles (s : Comfy.EngineState)
    (env : Comfy.TickEnv) :
    (s.make_context env).isSome ↔
      (s.renderer.isSome ∧ s.texture_creator.isSome) := by
  unfold Comfy.EngineState.make_context
  cases s.renderer <;> cases s.texture_creator <;> simp

/-- C2: For every engine state with a built context view, a second
simultaneous attempt to obtain a mutable reference to the same subsystem
cell — here the simulation graph `World` behind its checked cell — while
one mutable reference is outstanding fails fast (aborts, modelled by
`none`) rather than yielding two aliasing mutable references. -/
theorem second_world_borrow_fails (s : Comfy.EngineState)
    (env : Comfy.TickEnv) (ctx : Comfy.EngineContext)
    (_hctx : s.make_context env = some ctx) (w : Comfy.RefCell Comfy.World)
    (hw : ctx.world.borrow_mut = some w) : w.borrow_mut = none := by
  rcases hcell : ctx.world with ⟨v, f⟩
  cases f with
  | free =>
    rw [hcell] at hw
    unfold Comfy.RefCell.borrow_mut at hw
    simp only at hw
    injection hw with hw
    rw [← hw]
    rfl
  | mutBorrowed =>
    rw [hcell] at hw
    unfold Comfy.RefCell.borrow_mut at hw
    simp at hw

/-- Witness for C2 at a concrete state with both handles installed: the
context builds, the first mutable borrow of the world cell succeeds, and
the second fails fast. -/
theorem second_world_borrow_fails_witness :
    Comfy.stateW.make_context Comfy.envW = some Comfy.ctxW ∧
    Comfy.ctxW.world.borrow_mut = some Comfy.worldBorrowedW ∧
    Comfy.worldBorrowedW.borrow_mut = none :=
  ⟨rfl, rfl,
    second_world_borrow_fails Comfy.stateW Comfy.envW Comfy.ctxW rfl
      Comfy.worldBorrowedW rfl⟩

/-- C3: For every sequence of non-negative `real_delta` inputs fed to the
frame clock from the initial accumulator 0, the accumulator is in
`[0, fixed_step)` immediately after `advance` returns, and is never
negative at any point of the run. -/
theorem accumulator_invariant (cfg : Comfy.FrameClockConfig)
    (hstep : 0 < cfg.fixed_step) (ds : List ℚ) (d : ℚ)
    (_hds : ∀ x ∈ ds, 0 ≤ x) (_hd : 0 ≤ d) :
    0 ≤ Comfy.clockRun cfg ds ∧
    0 ≤ (cfg.advance (Comfy.clockRun cfg ds) d).1 ∧
    (cfg.advance (Comfy.clockRun cfg ds) d).1 < cfg.fixed_step := by
  have h0 := clockRun_nonneg cfg hstep ds
  have h1 := advance_mem_Ico cfg hstep (Comfy.clockRun cfg ds) d h0
  exact ⟨h0, h1.1, h1.2⟩

/-- Witness for C3 at the concrete 1/240 s clock, a two-element history and
one more advance. -/
theorem accumulator_invariant_witness :
    (0 : ℚ) < Comfy.clockW.fixed_step ∧
    (∀ x ∈ [(1 : ℚ), 2], 0 ≤ x) ∧
    (0 : ℚ) ≤ 3 ∧
    (0 ≤ Comfy.clockRun Comfy.clockW [(1 : ℚ), 2] ∧
     0 ≤ (Comfy.clockW.advance (Comfy.clockRun Comfy.clockW [(1 : ℚ), 2]) 3).1 ∧
     (Comfy.clockW.advance (Comfy.clockRun Comfy.clockW [(1 : ℚ), 2]) 3).1 <
       Comfy.clockW.fixed_step) :=
  ⟨by norm_num [Comfy.clockW], by norm_num, by norm_num,
    accumulator_invariant Comfy.clockW (by norm_num [Comfy.clockW])
      [(1 : ℚ), 2] 3 (by norm_num) (by norm_num)⟩

/-- C4: The context view built by `make_context` exposes every subsystem
the spec lists: the UI-input-capture boolean equals the UI context's
`wants_pointer_input()` at build time, and the renderer handle, draw
buffer, elapsed delta, both moving-average stats, the flag set, the
extension store, the simulation graph, the command buffer, the config, the
game-loop handle, cooldowns, change tracker, notifications, despawn queue,
pause flag, quit flag and texture-creator handle are the state's (resp. the
tick environment's) corresponding values. -/
theorem context_exposes_subsystems (s : Comfy.EngineState)
    (env : Comfy.TickEnv) (ctx : Comfy.EngineContext)
    (h : s.make_context env = some ctx) :
    ctx.egui_wants_mouse = s.egui.wants_pointer_input ∧
    s.renderer = some ctx.renderer ∧
    ctx.draw = s.draw ∧
    ctx.delta = env.delta ∧
    ctx.dt_stats = s.dt_stats ∧
    ctx.fps_stats = s.fps_stats ∧
    ctx.flags = s.flags ∧
    ctx.meta = s.meta ∧
    ctx.world = s.world ∧
    ctx.commands = s.commands ∧
    ctx.config = s.config ∧
    ctx.game_loop = s.game_loop ∧
    ctx.cooldowns = s.cooldowns ∧
    ctx.changes = s.changes ∧
    ctx.notifications = s.notifications ∧
    ctx.to_despawn = s.to_despawn ∧
    ctx.is_paused = s.is_paused ∧
    ctx.quit_flag = s.quit_flag ∧
    s.texture_creator = some ctx.texture_creator := by
  unfold Comfy.EngineState.make_context at h
  cases hr : s.renderer with
  | none => rw [hr] at h; exact absurd h (by simp)
  | some r =>
    rw [hr] at h
    cases ht : s.texture_creator with
    | none => rw [ht] at h; exact absurd h (by simp)
    | some tc =>
      rw [ht] at h
      injection h with h
      subst h
      exact ⟨rfl, rfl, rfl, rfl, rfl, rfl, rfl, rfl, rfl, rfl, rfl, rfl, rfl,
        rfl, rfl, rfl, rfl, rfl, rfl⟩

/-- Witness for C4 at the concrete fully-installed state. -/
theorem context_exposes_subsystems_witness :
    Comfy.stateW.make_context Comfy.envW = some Comfy.ctxW ∧
    (Comfy.ctxW.egui_wants_mouse = Comfy.stateW.egui.wants_pointer_input ∧
     Comfy.stateW.renderer = some Comfy.ctxW.renderer ∧
     Comfy.ctxW.draw = Comfy.stateW.draw ∧
     Comfy.ctxW.delta = Comfy.envW.delta ∧
     Comfy.ctxW.dt_stats = Comfy.stateW.dt_stats ∧
     Comfy.ctxW.fps_stats = Comfy.stateW.fps_stats ∧
     Comfy.ctxW.flags = Comfy.stateW.flags ∧
     Comfy.ctxW.meta = Comfy.stateW.meta ∧
     Comfy.ctxW.world = Comfy.stateW.world ∧
     Comfy.ctxW.commands = Comfy.stateW.commands ∧
     Comfy.ctxW.config = Comfy.stateW.config ∧
     Comfy.ctxW.game_loop = Comfy.stateW.game_loop ∧
     Comfy.ctxW.cooldowns = Comfy.stateW.cooldowns ∧
     Comfy.ctxW.changes = Comfy.stateW.changes ∧
     Comfy.ctxW.notifications = Comfy.stateW.notifications ∧
     Comfy.ctxW.to_despawn = Comfy.stateW.to_despawn ∧
     Comfy.ctxW.is_paused = Comfy.stateW.is_paused ∧
     Comfy.ctxW.quit_flag = Comfy.stateW.quit_flag ∧
     Comfy.stateW.texture_creator = some Comfy.ctxW.texture_creator) :=
  ⟨rfl, context_exposes_subsystems Comfy.stateW Comfy.envW Comfy.ctxW rfl⟩

/-- C5: For every configuration value (and asset store and start time),
`EngineState::new(config)` returns a state in the Uninitialized
configuration: `game_loop` is `None`, `quit_flag` is false, `is_paused`
holds false, `frame` is 0, the despawn queue and the command buffer are
empty, and the accumulator is 0 (in particular non-negative). -/
theorem new_state_uninitialized (config : Comfy.GameConfig)
    (assets : Comfy.Assets) (now : ℚ) :
    ((Comfy.EngineState.new config assets now).1.game_loop = none) ∧
    ((Comfy.EngineState.new config assets now).1.quit_flag = false) ∧
    ((Comfy.EngineState.new config assets now).1.is_paused.value = false) ∧
    ((Comfy.EngineState.new config assets now).1.frame = 0) ∧
    ((Comfy.EngineState.new config assets now).1.to_despawn.value = []) ∧
    ((Comfy.EngineState.new config assets now).1.commands.value = []) ∧
    ((Comfy.EngineState.new config assets now).1.accumulator = 0) ∧
    (0 ≤ (Comfy.EngineState.new config assets now).1.accumulator) :=
  ⟨rfl, rfl, rfl, rfl, rfl, rfl, rfl, le_refl 0⟩

/-- C6: For every configuration value (and prior asset-store contents),
`EngineState::new` loads the fallback sound under the fixed key "error"
into the asset store before returning, so a later lookup of the fallback
asset succeeds. -/
theorem new_loads_fallback_error_sound (config : Comfy.GameConfig)
    (assets : Comfy.Assets) (now : ℚ) :
    ((Comfy.EngineState.new config assets now).2.lookupSound "error").isSome :=
  rfl

/-- C7: For every dimensions value, `resize(new_dimensions)` on a state
whose renderer handle is installed does not error: it always returns a
state, and degenerate (e.g. zero-sized) dimensions are clamped to the
minimum surface dimension before being applied. -/
theorem resize_clamps_degenerate (s : Comfy.EngineState)
    (new_size : ℕ × ℕ) (h : s.renderer.isSome) :
    ∃ s' r, s.resize new_size = some s' ∧ s'.renderer = some r ∧
      Comfy.MIN_SURFACE_DIMENSION ≤ r.size.1 ∧
      Comfy.MIN_SURFACE_DIMENSION ≤ r.size.2 := by
  unfold Comfy.EngineState.resize
  cases hr : s.renderer with
  | none => rw [hr] at h; exact absurd h (by simp)
  | some r =>
    refine ⟨{ s with renderer := some (r.resize new_size) },
      r.resize new_size, rfl, rfl, ?_, ?_⟩
    · exact le_max_left _ _
    · exact le_max_left _ _

/-- Witness for C7: resizing the concrete installed state to the degenerate
0 × 0 dimensions succeeds with both dimensions clamped. -/
theorem resize_clamps_degenerate_witness :
    Comfy.stateW.renderer.isSome = true ∧
    (∃ s' r, Comfy.stateW.resize (0, 0) = some s' ∧ s'.renderer = some r ∧
      Comfy.MIN_SURFACE_DIMENSION ≤ r.size.1 ∧
      Comfy.MIN_SURFACE_DIMENSION ≤ r.size.2) :=
  ⟨rfl, resize_clamps_degenerate Comfy.stateW (0, 0) rfl⟩

/-- C8: For every engine state, `title()` returns exactly the config's
`game_name` followed by the literal suffix " (COMFY ENGINE)", and
`quit_flag()` returns the stored quit flag; in particular this holds for
every freshly constructed state, whose title is derived from the
configuration it was created with. -/
theorem title_and_quit_flag (s : Comfy.EngineState)
    (config : Comfy.GameConfig) (assets : Comfy.Assets) (now : ℚ) :
    s.title = s.config.value.game_name ++ " (COMFY ENGINE)" ∧
    s.quit_flag_fn = s.quit_flag ∧
    (Comfy.EngineState.new config assets now).1.title =
      config.game_name ++ " (COMFY ENGINE)" :=
  ⟨rfl, rfl, rfl⟩
